import Mathlib

/-!
Shallow embedding of the flir_bot mood system (characters.py, mood_inference.py,
groq_client.py).  Python floats are modelled as exact rationals (ℚ); all decimal
literals appearing in the source are exact at this scale, and every comparison
the claims exercise is between such literals.  Python dicts carrying the mood
classification are modelled as records of optional JSON values.
-/

namespace FlirBot

/-! ### Generic Python string helpers -/

/-- Model of Python `str.lower()` (ASCII; all strings the program compares are ASCII). -/
def pyLower (s : String) : String := ⟨s.data.map Char.toLower⟩

/-- Model of Python `s.split(",")`: split at every comma, empty pieces kept. -/
def splitOnComma : List Char → List (List Char)
  | [] => [[]]
  | c :: rest =>
    let r := splitOnComma rest
    if c = ',' then [] :: r
    else
      match r with
      | h :: t => (c :: h) :: t
      | [] => [[c]]

/-- Python whitespace characters stripped by `str.strip()` and matched by regex `\s`. -/
def pyWsChar (c : Char) : Bool :=
  c = ' ' || c = '\t' || c = '\n' || c = '\r' || c = '\x0c' || c = '\x0b'

/-- Model of Python `str.strip()` with no arguments. -/
def pyStrip (s : String) : String :=
  ⟨(s.data.dropWhile pyWsChar).reverse.dropWhile pyWsChar |>.reverse⟩

/-- Does `l` start with `pat`? -/
def listStarts : List Char → List Char → Bool
  | [], _ => true
  | _ :: _, [] => false
  | p :: ps, c :: cs => p = c && listStarts ps cs

/-- Does `pat` occur as a contiguous run inside `l`?  Model of Python `pat in l`. -/
def listHasRun (pat : List Char) : List Char → Bool
  | [] => listStarts pat []
  | c :: cs => listStarts pat (c :: cs) || listHasRun pat cs

/-- Model of Python `needle in hay` on strings. -/
def strContainsStr (hay needle : String) : Bool :=
  listHasRun needle.data hay.data

/-! ### characters.py — CharacterMood -/

/-- The closed `CharacterMood` enum from characters.py. -/
inductive CharacterMood where
  | neutral | pleased | encouraged | impressed | respectful
  | skeptical | impatient | annoyed
  | frustrated | disappointed | dismissive | defensive
  | angry | hostile | contemptuous
  | manipulative | calculating
deriving DecidableEq, Repr

/-- The `.value` string of each enum member. -/
def CharacterMood.value : CharacterMood → String
  | .neutral => "neutral" | .pleased => "pleased" | .encouraged => "encouraged"
  | .impressed => "impressed" | .respectful => "respectful" | .skeptical => "skeptical"
  | .impatient => "impatient" | .annoyed => "annoyed" | .frustrated => "frustrated"
  | .disappointed => "disappointed" | .dismissive => "dismissive" | .defensive => "defensive"
  | .angry => "angry" | .hostile => "hostile" | .contemptuous => "contemptuous"
  | .manipulative => "manipulative" | .calculating => "calculating"

/-- All members, in declaration order (Python `list(CharacterMood)`). -/
def CharacterMood.members : List CharacterMood :=
  [.neutral, .pleased, .encouraged, .impressed, .respectful,
   .skeptical, .impatient, .annoyed,
   .frustrated, .disappointed, .dismissive, .defensive,
   .angry, .hostile, .contemptuous,
   .manipulative, .calculating]

/-- Model of the enum constructor `CharacterMood(s)`: `some` member with that
value, `none` when Python would raise `ValueError`. -/
def charMoodOfString (s : String) : Option CharacterMood :=
  CharacterMood.members.find? (fun m => m.value = s)

/-! ### characters.py — MoodState -/

/-- `MoodState` dataclass (intensity as exact rational). -/
structure MoodState where
  current_mood : CharacterMood
  intensity : ℚ := 0.7
  reason : String := ""
  trigger_keywords : List String := []
  previous_mood : Option CharacterMood := none
  mood_history : List CharacterMood := []
deriving DecidableEq, Repr

/-- `MoodState.update_mood`: append the old mood to the history (no cap here),
shift it into `previous_mood`, and overwrite the live fields.  The Python
parameter `triggers` defaults to `None` and is committed as `triggers or []`. -/
def MoodState.update_mood (self : MoodState) (new_mood : CharacterMood)
    (intensity : ℚ) (reason : String)
    (triggers : Option (List String) := none) : MoodState :=
  { current_mood := new_mood
    intensity := intensity
    reason := reason
    trigger_keywords := triggers.getD []
    previous_mood := some self.current_mood
    mood_history := self.mood_history ++ [self.current_mood] }

/-- The flat persisted record produced by `MoodState.to_dict`. -/
structure MoodRecord where
  current_mood : String
  intensity : ℚ
  reason : String
  trigger_keywords : List String
  previous_mood : Option String
  mood_history : List String
deriving DecidableEq, Repr

/-- `MoodState.to_dict`: serialize; `mood_history[-5:]` keeps only the last 5. -/
def MoodState.to_dict (self : MoodState) : MoodRecord :=
  { current_mood := self.current_mood.value
    intensity := self.intensity
    reason := self.reason
    trigger_keywords := self.trigger_keywords
    previous_mood := self.previous_mood.map CharacterMood.value
    mood_history :=
      (self.mood_history.drop (self.mood_history.length - 5)).map CharacterMood.value }

/-- The list comprehension `[CharacterMood(m) for m in data.get("mood_history", [])]`:
`none` models the `ValueError` on the first invalid value string. -/
def charMoodsOfStrings : List String → Option (List CharacterMood)
  | [] => some []
  | s :: rest => do
    let m ← charMoodOfString s
    let t ← charMoodsOfStrings rest
    pure (m :: t)

/-- `MoodState.from_dict`: deserialize; `none` models Python raising `ValueError`
on an invalid mood string.  Python's `if data.get("previous_mood")` is a
truthiness test, so an empty string deserializes to `None`. -/
def MoodState.from_dict (data : MoodRecord) : Option MoodState := do
  let cm ← charMoodOfString data.current_mood
  let pm ← match data.previous_mood with
    | some s => if s = "" then pure none else (charMoodOfString s).map some
    | none => pure none
  let hist ← charMoodsOfStrings data.mood_history
  pure { current_mood := cm
         intensity := data.intensity
         reason := data.reason
         trigger_keywords := data.trigger_keywords
         previous_mood := pm
         mood_history := hist }

/-! ### characters.py — MoodBehaviorRule and rule selection -/

/-- `MoodBehaviorRule` dataclass. -/
structure MoodBehaviorRule where
  mood : CharacterMood
  trigger_keywords : List String
  behaviors : List String
  intensity_threshold : ℚ := 0.5
deriving DecidableEq, Repr

/-- `MoodBehaviorRule.matches`: mood equality, intensity at or above the
threshold, and some trigger keyword occurring verbatim inside the lowercased
user message (the keyword itself is not lowercased by the source). -/
def MoodBehaviorRule.matches (self : MoodBehaviorRule) (mood_state : MoodState)
    (user_message : String) : Bool :=
  if mood_state.current_mood ≠ self.mood then false
  else if mood_state.intensity < self.intensity_threshold then false
  else
    let user_message_lower := pyLower user_message
    self.trigger_keywords.any (fun keyword => strContainsStr user_message_lower keyword)

/-- The fields of `CharacterPersona` that rule selection reads. -/
structure CharacterPersona where
  id : String
  name : String
  mood_behavior_rules : List MoodBehaviorRule
deriving Repr

/-- The `matching_rules` list comprehension inside
`CharacterPersona.generate_mood_based_instructions`: every rule of the table
whose `matches` test passes, in table order. -/
def CharacterPersona.matching_rules (self : CharacterPersona) (mood_state : MoodState)
    (user_message : String) : List MoodBehaviorRule :=
  self.mood_behavior_rules.filter (fun rule => rule.matches mood_state user_message)

/-! ### groq_client.py — conversation history filtering -/

/-- A conversation-history entry: `role` is always present (indexed directly by
the source), `character` and `content` are read with `.get` defaults. -/
structure ChatMsg where
  role : String
  character : Option String := none
  content : Option String := none
deriving DecidableEq, Repr

/-- `GroqClient._get_character_relevant_history`: user entries pass through
unchanged; assistant entries are rewritten with a first-person prefix for the
target character and a third-person attribution for others (the rewritten dicts
carry no `character` key); entries with any other role are dropped. -/
def get_character_relevant_history : List ChatMsg → String → List ChatMsg
  | [], _ => []
  | msg :: rest, current_character_name =>
    let relevant_messages := get_character_relevant_history rest current_character_name
    if msg.role = "user" then msg :: relevant_messages
    else if msg.role = "assistant" then
      let character_name := msg.character.getD "Unknown"
      let content := msg.content.getD ""
      if character_name = current_character_name then
        { role := "assistant", content := some ("You said: " ++ content) }
          :: relevant_messages
      else
        { role := "assistant", content := some (character_name ++ " said: " ++ content) }
          :: relevant_messages
    else relevant_messages

/-- Specification-side per-entry rewrite for the history view: user entries
unchanged, the target character's lines get the first-person prefix, other
characters' lines the third-person attribution. -/
def attributedView (current_character_name : String) (msg : ChatMsg) : ChatMsg :=
  if msg.role = "user" then msg
  else
    let speaker := msg.character.getD "Unknown"
    let content := msg.content.getD ""
    if speaker = current_character_name then
      { role := "assistant", content := some ("You said: " ++ content) }
    else
      { role := "assistant", content := some (speaker ++ " said: " ++ content) }

/-! ### JSON values (model of Python `json.loads` results)

Finite values only: the non-standard `NaN`/`Infinity` extensions of Python's
json module are outside this model, as are numbers too deep for the parser's
fuel; none of the inputs the theorems evaluate involve them. -/

/-- A parsed JSON value; numbers are exact rationals. -/
inductive JVal where
  | null
  | bool (b : Bool)
  | num (q : ℚ)
  | str (s : String)
  | arr (xs : List JVal)
  | obj (fields : List (String × JVal))
deriving Repr, Inhabited

/-- JSON whitespace accepted between tokens. -/
def jsonWs (c : Char) : Bool := c = ' ' || c = '\t' || c = '\n' || c = '\r'

/-- Digit run helper: split a leading run of decimal digits. -/
def takeDigits (cs : List Char) : List Char × List Char :=
  (cs.takeWhile Char.isDigit, cs.dropWhile Char.isDigit)

/-- Natural number denoted by a digit run. -/
def natOfDigits (ds : List Char) : Nat :=
  ds.foldl (fun acc c => 10 * acc + (c.toNat - '0'.toNat)) 0

/-- Value of `intpart.fracpart e exp` as an exact rational (built with `mkRat`
over machine-level integer arithmetic so that concrete runs reduce). -/
def decimalValue (neg : Bool) (ip fp : List Char) (exNeg : Bool) (ex : List Char) : ℚ :=
  let m : Nat := natOfDigits ip * 10 ^ fp.length + natOfDigits fp
  let num : ℤ := if neg then -(m : ℤ) else (m : ℤ)
  let e : Nat := natOfDigits ex
  if exNeg then mkRat num (10 ^ (fp.length + e))
  else mkRat (num * 10 ^ e) (10 ^ fp.length)

/-- Is this character a hexadecimal digit? -/
def isHexChar (c : Char) : Bool :=
  c.isDigit || ('a' ≤ c && c ≤ 'f') || ('A' ≤ c && c ≤ 'F')

/-- Numeric value of a hexadecimal digit. -/
def hexVal (c : Char) : Nat :=
  if c.isDigit then c.toNat - '0'.toNat
  else if c ≤ 'F' then c.toNat - 'A'.toNat + 10
  else c.toNat - 'a'.toNat + 10

/-- Parse a JSON string body after the opening quote (fueled).  Strict mode: a
raw control character (such as a literal newline) inside the string is an
error. -/
def parseJStr : Nat → List Char → Option (String × List Char)
  | 0, _ => none
  | _, [] => none
  | _, '"' :: rest => some ("", rest)
  | fuel + 1, '\\' :: rest =>
    let esc : Option (Char × List Char) :=
      match rest with
      | [] => none
      | e :: rest' =>
        if e = '"' then some ('"', rest')
        else if e = '\\' then some ('\\', rest')
        else if e = '/' then some ('/', rest')
        else if e = 'b' then some ('\x08', rest')
        else if e = 'f' then some ('\x0c', rest')
        else if e = 'n' then some ('\n', rest')
        else if e = 'r' then some ('\r', rest')
        else if e = 't' then some ('\t', rest')
        else if e = 'u' then
          match rest' with
          | h1 :: h2 :: h3 :: h4 :: rest'' =>
            if isHexChar h1 && isHexChar h2 && isHexChar h3 && isHexChar h4 then
              some (Char.ofNat ([h1, h2, h3, h4].foldl (fun acc c => 16 * acc + hexVal c) 0),
                    rest'')
            else none
          | _ => none
        else none
    match esc with
    | some (c, rest'') =>
      match parseJStr fuel rest'' with
      | some (s, tail) => some (⟨c :: s.data⟩, tail)
      | none => none
    | none => none
  | fuel + 1, c :: rest =>
    if c.toNat < 0x20 then none
    else
      match parseJStr fuel rest with
      | some (s, tail) => some (⟨c :: s.data⟩, tail)
      | none => none

/-- Parse a JSON number (grammar `-? int frac? exp?`, `int = 0 | [1-9][0-9]*`). -/
def parseJNum (cs : List Char) : Option (ℚ × List Char) :=
  let (neg, cs₁) := match cs with
    | '-' :: t => (true, t)
    | _ => (false, cs)
  match takeDigits cs₁ with
  | ([], _) => none
  | (ip, cs₂) =>
    if ip.length > 1 && ip.head? = some '0' then none
    else
      let (fp, cs₃) : List Char × List Char := match cs₂ with
        | '.' :: t =>
          match takeDigits t with
          | ([], _) => ([], '.' :: t)
          | (ds, rest) => (ds, rest)
        | _ => ([], cs₂)
      if cs₂ ≠ cs₃ ∧ fp = [] then none
      else match cs₃ with
      | '.' :: _ => none
      | e :: t =>
        if e = 'e' || e = 'E' then
          let (exNeg, t₁) := match t with
            | '-' :: t' => (true, t')
            | '+' :: t' => (false, t')
            | _ => (false, t)
          match takeDigits t₁ with
          | ([], _) => none
          | (ex, rest) => some (decimalValue neg ip fp exNeg ex, rest)
        else some (decimalValue neg ip fp false [], e :: t)
      | [] => some (decimalValue neg ip fp false [], [])

/-- Drop JSON whitespace. -/
def skipJWs (cs : List Char) : List Char := cs.dropWhile jsonWs

mutual

/-- Parse one JSON value (fueled recursive descent). -/
def parseJVal : Nat → List Char → Option (JVal × List Char)
  | 0, _ => none
  | fuel + 1, cs =>
    match cs with
    | [] => none
    | '\x7b' :: rest =>
      (parseJObj fuel (skipJWs rest) true).map (fun (fs, t) => (.obj fs, t))
    | '[' :: rest =>
      (parseJArr fuel (skipJWs rest) true).map (fun (xs, t) => (.arr xs, t))
    | '"' :: rest => (parseJStr (rest.length + 1) rest).map (fun (s, t) => (.str s, t))
    | 't' :: 'r' :: 'u' :: 'e' :: rest => some (.bool true, rest)
    | 'f' :: 'a' :: 'l' :: 's' :: 'e' :: rest => some (.bool false, rest)
    | 'n' :: 'u' :: 'l' :: 'l' :: rest => some (.null, rest)
    | c :: _ =>
      if c = '-' || c.isDigit then (parseJNum cs).map (fun (q, t) => (.num q, t))
      else none

/-- Parse the members of a JSON object after the opening brace (and leading
whitespace); `first` is true before the first member. -/
def parseJObj : Nat → List Char → Bool → Option (List (String × JVal) × List Char)
  | 0, _, _ => none
  | _, '\x7d' :: rest, true => some ([], rest)
  | fuel + 1, cs, _ =>
    match cs with
    | '"' :: rest =>
      match parseJStr (rest.length + 1) rest with
      | none => none
      | some (key, cs₁) =>
        match skipJWs cs₁ with
        | ':' :: cs₂ =>
          match parseJVal fuel (skipJWs cs₂) with
          | none => none
          | some (v, cs₃) =>
            match skipJWs cs₃ with
            | ',' :: cs₄ =>
              match parseJObj fuel (skipJWs cs₄) false with
              | some (fields, rest) => some ((key, v) :: fields, rest)
              | none => none
            | '\x7d' :: rest => some ([(key, v)], rest)
            | _ => none
        | _ => none
    | _ => none

/-- Parse the elements of a JSON array after the opening bracket (and leading
whitespace); `first` is true before the first element. -/
def parseJArr : Nat → List Char → Bool → Option (List JVal × List Char)
  | 0, _, _ => none
  | _, ']' :: rest, true => some ([], rest)
  | fuel + 1, cs, _ =>
    match parseJVal fuel cs with
    | none => none
    | some (v, cs₁) =>
      match skipJWs cs₁ with
      | ',' :: cs₂ =>
        match parseJArr fuel (skipJWs cs₂) false with
        | some (xs, rest) => some (v :: xs, rest)
        | none => none
      | ']' :: rest => some ([v], rest)
      | _ => none

end

/-- Model of Python `json.loads`: surrounding whitespace allowed, the whole
input must be consumed (else "Extra data"), failure is `none`. -/
def jsonLoads (s : String) : Option JVal :=
  let cs := skipJWs s.data
  match parseJVal (2 * cs.length + 2) cs with
  | some (v, rest) => if skipJWs rest = [] then some v else none
  | none => none

/-! ### mood_inference.py — Python dynamics -/

/-- The exceptions the embedded pipeline can raise. -/
inductive PyErr where
  | typeError
  | valueError
  | keyError
  | transportError
deriving DecidableEq, Repr

/-- Model of Python `float(s)` on a string: optional sign, decimal digits with
at most one dot, optional exponent (finite values only; `inf`/`nan` and digit
underscores are outside the model). -/
def pyFloatOfStr (s : String) : Option ℚ :=
  let cs := (pyStrip s).data
  let (neg, cs₁) : Bool × List Char := match cs with
    | '+' :: t => (false, t)
    | '-' :: t => (true, t)
    | _ => (false, cs)
  let (ip, cs₂) := takeDigits cs₁
  let (fp, cs₃) : List Char × List Char := match cs₂ with
    | '.' :: t => takeDigits t
    | _ => ([], cs₂)
  if ip = [] ∧ fp = [] then none
  else match cs₃ with
  | [] => some (decimalValue neg ip fp false [])
  | e :: t =>
    if e = 'e' || e = 'E' then
      let (exNeg, t₁) : Bool × List Char := match t with
        | '-' :: t' => (true, t')
        | '+' :: t' => (false, t')
        | _ => (false, t)
      match takeDigits t₁ with
      | ([], _) => none
      | (ex, rest) => if rest = [] then some (decimalValue neg ip fp exNeg ex) else none
    else none

/-- Model of Python `float(x)` on a JSON value: numbers pass through, booleans
coerce to 0/1, numeric strings parse (else `ValueError`), anything else is a
`TypeError`. -/
def pyFloatOfJVal : JVal → Except PyErr ℚ
  | .num q => .ok q
  | .bool b => .ok (if b then 1 else 0)
  | .str s =>
    match pyFloatOfStr s with
    | some q => .ok q
    | none => .error .valueError
  | _ => .error .typeError

/-- Python truthiness of a JSON value (`bool(x)`). -/
def jvalTruthy : JVal → Bool
  | .null => false
  | .bool b => b
  | .num q => q ≠ 0
  | .str s => s ≠ ""
  | .arr xs => !xs.isEmpty
  | .obj fs => !fs.isEmpty

/-- Model of Python `key in data` for the dynamically typed `data`: dict key
membership, list element membership, substring test on strings, `TypeError`
otherwise. -/
def pyContainsKey (data : JVal) (key : String) : Except PyErr Bool :=
  match data with
  | .obj fields => .ok (fields.any (fun kv => kv.1 = key))
  | .arr xs => .ok (xs.any (fun x => match x with | .str s => s = key | _ => false))
  | .str s => .ok (strContainsStr s key)
  | _ => .error .typeError

/-- Model of Python `data[key]`: dict lookup (later duplicate keys win, as in
`json.loads`), `TypeError` on non-dict values, `KeyError` when absent. -/
def pyIndex (data : JVal) (key : String) : Except PyErr JVal :=
  match data with
  | .obj fields =>
    match fields.reverse.find? (fun kv => kv.1 = key) with
    | some kv => .ok kv.2
    | none => .error .keyError
  | _ => .error .typeError

/-- The mood-classification dict flowing through the pipeline.  Only the four
keys the downstream code ever reads are modelled; extra keys in the LLM's JSON
are carried along by the Python dict but never observed. -/
structure PyDict where
  mood : Option JVal := none
  intensity : Option JVal := none
  reason : Option JVal := none
  trigger_keywords : Option JVal := none
deriving Repr

/-- `MoodInferenceSystem._get_fallback_mood`. -/
def get_fallback_mood : PyDict :=
  { mood := some (.str "neutral")
    intensity := some (.num 0.5)
    reason := some (.str "Mood inference parsing failed")
    trigger_keywords := some (.arr []) }

/-- `MoodInferenceSystem._validate_and_sanitize_mood_data`: reject records
missing `mood` or `intensity` (fallback), replace an invalid mood by
`"neutral"`, coerce and clamp intensity into `[0, 1]` (0.5 when `float()`
fails), default a missing or falsy reason, and normalize `trigger_keywords` to
a list.  Errors model exceptions this method does not catch (for instance the
`TypeError` from `"mood" in data` when `json.loads` produced a number). -/
def validate_and_sanitize_mood_data (data : JVal) : Except PyErr PyDict := do
  let hasMood ← pyContainsKey data "mood"
  let missing ←
    if !hasMood then pure true
    else do
      let hasIntensity ← pyContainsKey data "intensity"
      pure (!hasIntensity)
  if missing then
    pure get_fallback_mood
  else do
    let moodV ← pyIndex data "mood"
    let mood : JVal :=
      match moodV with
      | .str s => if (charMoodOfString s).isSome then moodV else .str "neutral"
      | _ => .str "neutral"
    let intensityV ← pyIndex data "intensity"
    let intensity : JVal :=
      match pyFloatOfJVal intensityV with
      | .ok q => .num (max 0 (min 1 q))
      | .error _ => .num 0.5
    let hasReason ← pyContainsKey data "reason"
    let reason : JVal ←
      if !hasReason then pure (JVal.str "Inferred from user's response")
      else do
        let r ← pyIndex data "reason"
        pure (if jvalTruthy r then r else .str "Inferred from user's response")
    let hasTriggers ← pyContainsKey data "trigger_keywords"
    let triggers : JVal ←
      if !hasTriggers then pure (JVal.arr [])
      else do
        let t ← pyIndex data "trigger_keywords"
        match t with
        | .arr _ => pure t
        | .str s => pure (.arr ((splitOnComma s.data).map (fun kw => .str (pyStrip ⟨kw⟩))))
        | _ => pure (.arr [])
    pure { mood := some mood, intensity := some intensity,
           reason := some reason, trigger_keywords := some triggers }

/-! ### mood_inference.py — extraction strategies -/

/-- The backtick character (ASCII 96). -/
def backquote : Char := Char.ofNat 96

/-- The suffix of `cs` starting at the first opening brace (`text.find` + slice). -/
def suffixFromBrace : List Char → Option (List Char)
  | [] => none
  | c :: rest => if c = '\x7b' then some (c :: rest) else suffixFromBrace rest

/-- The brace-counting loop of `_extract_json_with_brace_matching`: length of the
shortest prefix on which the running count of `\x7b` minus `\x7d` returns to zero
at a closing brace, `none` when the braces stay unmatched. -/
def braceMatchLen : List Char → Int → Nat → Option Nat
  | [], _, _ => none
  | c :: rest, count, idx =>
    if c = '\x7b' then braceMatchLen rest (count + 1) (idx + 1)
    else if c = '\x7d' then
      if count - 1 = 0 then some (idx + 1)
      else braceMatchLen rest (count - 1) (idx + 1)
    else braceMatchLen rest count (idx + 1)

/-- The `re.sub` removing a leading markdown code fence (a no-op on the
brace-delimited strings this is applied to, modelled faithfully anyway). -/
def stripLeadFence (cs : List Char) : List Char :=
  match cs with
  | a :: b :: c :: rest =>
    if a = backquote ∧ b = backquote ∧ c = backquote then
      let rest₁ := if listStarts ['j', 's', 'o', 'n'] rest then rest.drop 4 else rest
      rest₁.dropWhile pyWsChar
    else cs
  | _ => cs

/-- The `re.sub` removing a trailing markdown code fence. -/
def stripTrailFence (cs : List Char) : List Char :=
  let r := cs.reverse
  match r with
  | a :: b :: c :: rest =>
    if a = backquote ∧ b = backquote ∧ c = backquote then
      (rest.dropWhile pyWsChar).reverse
    else cs
  | _ => cs

/-- `MoodInferenceSystem._extract_json_with_brace_matching`: slice from the
first `\x7b` to the brace-balanced closing `\x7d` (braces inside string literals
count too), then strip whitespace and markdown fences. -/
def extract_json_with_brace_matching (text : String) : Option String :=
  match suffixFromBrace text.data with
  | none => none
  | some cs =>
    match braceMatchLen cs 0 0 with
    | none => none
    | some len =>
      some ⟨stripTrailFence (stripLeadFence (pyStrip ⟨cs.take len⟩).data)⟩

/-- The strategy-2 search `re.search(r'\x7b[^\x7b\x7d]+\x7d', response)`: the
leftmost brace-delimited run with no nested braces and a non-empty body. -/
def findFlatJson : List Char → Option String
  | [] => none
  | c :: rest =>
    if c = '\x7b' then
      let body := rest.takeWhile (fun d => d ≠ '\x7b' ∧ d ≠ '\x7d')
      match rest.drop body.length with
      | d :: _ =>
        if d = '\x7d' ∧ body ≠ [] then some ⟨'\x7b' :: (body ++ ['\x7d'])⟩
        else findFlatJson rest
      | [] => findFlatJson rest
    else findFlatJson rest

/-- Word characters of the regex class `\w` (ASCII). -/
def isWordChar (c : Char) : Bool := c.isAlphanum || c = '_'

/-- Match a literal key case-insensitively at the head of `cs` (the key is given
lowercased), returning what follows. -/
def matchKeyCI : List Char → List Char → Option (List Char)
  | [], cs => some cs
  | _ :: _, [] => none
  | k :: ks, c :: cs => if c.toLower = k then matchKeyCI ks cs else none

/-- Match `"?<key>"?\s*[:=]\s*` (case-insensitive key) at the head of `cs`,
returning what follows. -/
def afterKeyColon (key : List Char) (cs : List Char) : Option (List Char) :=
  let cs₁ := match cs with
    | '"' :: rest => rest
    | _ => cs
  match matchKeyCI key cs₁ with
  | none => none
  | some cs₂ =>
    let cs₃ := match cs₂ with
      | '"' :: rest => rest
      | _ => cs₂
    match cs₃.dropWhile pyWsChar with
    | ':' :: rest => some (rest.dropWhile pyWsChar)
    | '=' :: rest => some (rest.dropWhile pyWsChar)
    | _ => none

/-- `re.search(r'"?mood"?\s*[:=]\s*"?(\w+)"?', text, re.IGNORECASE)` followed by
`.group(1).lower()`. -/
def searchMoodFrom : List Char → Option String
  | [] => none
  | c :: rest =>
    let hit : Option (List Char) := do
      let cs₁ ← afterKeyColon ['m', 'o', 'o', 'd'] (c :: rest)
      let cs₂ := match cs₁ with
        | '"' :: r => r
        | _ => cs₁
      let w := cs₂.takeWhile isWordChar
      if w = [] then none else some w
    match hit with
    | some w => some (pyLower ⟨w⟩)
    | none => searchMoodFrom rest

/-- `re.search(r'"?intensity"?\s*[:=]\s*([0-9.]+)', text, re.IGNORECASE)`,
returning the matched token. -/
def searchIntensityFrom : List Char → Option String
  | [] => none
  | c :: rest =>
    let hit : Option (List Char) := do
      let cs₁ ← afterKeyColon ['i', 'n', 't', 'e', 'n', 's', 'i', 't', 'y'] (c :: rest)
      let w := cs₁.takeWhile (fun d => d.isDigit || d = '.')
      if w = [] then none else some w
    match hit with
    | some w => some ⟨w⟩
    | none => searchIntensityFrom rest

/-- `re.search(r'"?reason"?\s*[:=]\s*"([^"]+)"', text, re.IGNORECASE)`. -/
def searchReasonFrom : List Char → Option String
  | [] => none
  | c :: rest =>
    let hit : Option (List Char) := do
      let cs₁ ← afterKeyColon ['r', 'e', 'a', 's', 'o', 'n'] (c :: rest)
      match cs₁ with
      | '"' :: cs₂ =>
        let body := cs₂.takeWhile (fun d => d ≠ '"')
        match cs₂.drop body.length with
        | '"' :: _ => if body = [] then none else some body
        | _ => none
      | _ => none
    match hit with
    | some w => some ⟨w⟩
    | none => searchReasonFrom rest

/-! ### mood_inference.py — response parsing and the turn pipeline -/

/-- `MoodInferenceSystem._extract_fields_from_text`: last-resort field scraping.
`float()` on the intensity token is unguarded, so a token such as `"."` raises
`ValueError` out of the method; the extracted intensity is not range-checked. -/
def extract_fields_from_text (text : String) : Except PyErr (Option PyDict) := do
  let moodHit := searchMoodFrom text.data
  let intensityHit ← match searchIntensityFrom text.data with
    | none => pure (none : Option ℚ)
    | some tok =>
      match pyFloatOfStr tok with
      | some q => pure (some q)
      | none => throw PyErr.valueError
  let reasonHit := searchReasonFrom text.data
  match moodHit, intensityHit with
  | some m, some q =>
    if (charMoodOfString m).isSome then
      pure (some { mood := some (.str m)
                   intensity := some (.num q)
                   reason := some (.str (reasonHit.getD "Extracted from text"))
                   trigger_keywords := some (.arr []) })
    else pure none
  | _, _ => pure none

/-- Run one JSON-based strategy of `_parse_mood_response`: parse `json_str`,
sanitize on success.  `none` means fall through to the next strategy (a parse
failure, or a `ValueError` caught by the strategy's `except` clause); other
exceptions propagate. -/
def tryJsonStrategy (json_str : String) : Except PyErr (Option PyDict) :=
  match jsonLoads json_str with
  | none => pure none
  | some data =>
    match validate_and_sanitize_mood_data data with
    | .ok d => pure (some d)
    | .error .valueError => pure none
    | .error e => throw e

/-- `MoodInferenceSystem._parse_mood_response`: brace-matched JSON, then the
flat-JSON regex, then the whole stripped response as JSON, then field scraping,
then the fallback record.  Exceptions the strategies' `except` clauses do not
cover propagate as errors. -/
def parse_mood_response (response : String) : Except PyErr PyDict := do
  let s1 ← match extract_json_with_brace_matching response with
    | some json_str => tryJsonStrategy json_str
    | none => pure none
  match s1 with
  | some d => return d
  | none =>
  let s2 ← match findFlatJson response.data with
    | some m => tryJsonStrategy m
    | none => pure none
  match s2 with
  | some d => return d
  | none =>
  let s3 ← tryJsonStrategy (pyStrip response)
  match s3 with
  | some d => return d
  | none =>
  let s4 ← extract_fields_from_text response
  match s4 with
  | some d => return d
  | none => return get_fallback_mood

/-- The `negative_moods` list of `_validate_consistency`. -/
def negative_moods : List String :=
  ["angry", "hostile", "contemptuous", "frustrated", "dismissive"]

/-- The `positive_moods` list of `_validate_consistency`. -/
def positive_moods : List String :=
  ["pleased", "encouraged", "impressed", "respectful"]

/-- Python `x > q` for a dynamically typed `x` (numbers and booleans compare;
anything else raises `TypeError`). -/
def pyGtNum (x : JVal) (q : ℚ) : Except PyErr Bool := do
  let v ← match x with
    | .num v => pure v
    | .bool b => pure ((if b then 1 else 0) : ℚ)
    | _ => throw PyErr.typeError
  pure (q < v)

/-- `MoodInferenceSystem._validate_consistency`: cap the intensity at 0.6 when
the prior mood is negative, the new mood positive and the raw intensity above
0.7 (the mood itself is kept), then default any missing field. -/
def validate_consistency (current_mood_state : MoodState) (refined_data : PyDict) :
    Except PyErr PyDict := do
  let mood : JVal := refined_data.mood.getD (.str "neutral")
  let intensity : JVal := refined_data.intensity.getD (.num 0.5)
  let current_is_negative : Bool := current_mood_state.current_mood.value ∈ negative_moods
  let new_is_positive : Bool :=
    match mood with
    | .str s => s ∈ positive_moods
    | _ => false
  let d₁ : PyDict ←
    if current_is_negative && new_is_positive then do
      let jump ← pyGtNum intensity 0.7
      if jump then do
        let q ← match intensity with
          | .num v => pure v
          | .bool b => pure ((if b then 1 else 0) : ℚ)
          | _ => throw PyErr.typeError
        pure { refined_data with intensity := some (.num (min q 0.6)) }
      else pure refined_data
    else pure refined_data
  pure { d₁ with
    mood := some (d₁.mood.getD (.str "neutral"))
    intensity := some (d₁.intensity.getD (.num 0.5))
    reason := some (d₁.reason.getD (.str "Inferred from conversation"))
    trigger_keywords := some (d₁.trigger_keywords.getD (.arr [])) }

/-- The body of `MoodInferenceSystem.infer_mood`'s `try` block, with the
transport layer abstracted as the `llm_response` argument (an error models the
generation call raising).  The final commit enforces the dataclass annotations
(`reason: str`, `triggers: List[str]`) at the boundary. -/
def infer_mood_step (current_mood_state : MoodState)
    (llm_response : Except PyErr String) : Except PyErr MoodState := do
  let response ← llm_response
  let mood_data ← parse_mood_response response
  let final_data ← validate_consistency current_mood_state mood_data
  let new_mood ← match final_data.mood with
    | some (.str s) =>
      match charMoodOfString s with
      | some m => pure m
      | none => throw PyErr.valueError
    | some _ => throw PyErr.valueError
    | none => throw PyErr.keyError
  let intensity ← match final_data.intensity with
    | some v => pyFloatOfJVal v
    | none => throw PyErr.keyError
  let reason ← match final_data.reason with
    | some (.str s) => pure s
    | some _ => throw PyErr.typeError
    | none => throw PyErr.keyError
  let triggers ← match final_data.trigger_keywords with
    | some (.arr xs) =>
      xs.mapM (fun x => match x with
        | .str s => pure s
        | _ => throw PyErr.typeError)
    | some _ => throw PyErr.typeError
    | none => pure []
  pure (current_mood_state.update_mood new_mood intensity reason (some triggers))

/-- `MoodInferenceSystem.infer_mood`: any exception in the pipeline is caught
and the input mood state is returned unchanged. -/
def infer_mood (current_mood_state : MoodState)
    (llm_response : Except PyErr String) : MoodState :=
  match infer_mood_step current_mood_state llm_response with
  | .ok st => st
  | .error _ => current_mood_state

/-! ### Concrete fixtures used by witnesses and counterexamples -/

/-- A neutral state at full intensity. -/
def stNeutral : MoodState := { current_mood := .neutral, intensity := 1 }

/-- An angry state at high intensity. -/
def stAngry : MoodState := { current_mood := .angry, intensity := 0.9 }

/-- A rule whose only trigger keyword contains an uppercase letter. -/
def rUpper : MoodBehaviorRule :=
  { mood := .neutral, trigger_keywords := ["A"], behaviors := ["b"], intensity_threshold := 0 }

/-- A rule with an empty trigger-keyword list. -/
def rEmpty : MoodBehaviorRule :=
  { mood := .angry, trigger_keywords := [], behaviors := ["b"], intensity_threshold := 0 }

/-- One mood-pipeline commit with fixed arguments, for iterating transitions. -/
def bumpMood (s : MoodState) : MoodState := s.update_mood .neutral 0.5 "turn" none

/-- Specification-side reading of the keyword condition in C4: the keyword
appears case-insensitively as a substring of the user message. -/
def appears_case_insensitively (kw msg : String) : Bool :=
  strContainsStr (pyLower msg) (pyLower kw)

/-! ### Claims -/

/-- C4 counterexample: for the rule whose trigger keyword is `"A"` and message
`"a"`, the three conditions of the claim hold (mood equality, intensity at the
threshold, keyword present case-insensitively) yet `matches` is `false`: the
source lowercases only the message, never the keyword. -/
theorem matches_not_case_insensitive :
    stNeutral.current_mood = rUpper.mood ∧
    rUpper.intensity_threshold ≤ stNeutral.intensity ∧
    (∃ kw ∈ rUpper.trigger_keywords, appears_case_insensitively kw "a" = true) ∧
    rUpper.matches stNeutral "a" = false :=
  ⟨rfl, by decide, ⟨"A", by decide, by decide⟩, by decide⟩

/-- C4 (amended): a rule matches exactly when its mood equals the state's
current mood, the state's intensity is at or above the rule's threshold, and at
least one trigger keyword appears verbatim (keyword not lowercased) as a
substring of the lowercased user message. -/
theorem matches_iff_amended (r : MoodBehaviorRule) (st : MoodState) (msg : String) :
    r.matches st msg = true ↔
      (st.current_mood = r.mood ∧ r.intensity_threshold ≤ st.intensity ∧
       ∃ kw ∈ r.trigger_keywords, strContainsStr (pyLower msg) kw = true) := by
  unfold MoodBehaviorRule.matches
  split
  · rename_i h₁
    simp [h₁]
  · split
    · rename_i h₁ h₂
      have h₂' := not_le.mpr h₂
      simp [h₂']
    · rename_i h₁ h₂
      rw [not_not] at h₁
      rw [not_lt] at h₂
      simp [List.any_eq_true, h₁, h₂]

/-- C10: a rule whose trigger-keyword list is empty never matches, whatever the
mood state and user message: the keyword condition is an existential over the
(empty) keyword list. -/
theorem empty_triggers_never_match (r : MoodBehaviorRule) (st : MoodState)
    (msg : String) (h : r.trigger_keywords = []) :
    r.matches st msg = false := by
  unfold MoodBehaviorRule.matches
  split
  · rfl
  · split
    · rfl
    · simp [h]

/-- C10 witness: the empty-keyword rule does not match even with its own mood at
full-strength intensity and an arbitrary message. -/
theorem empty_triggers_never_match_witness :
    rEmpty.trigger_keywords = [] ∧ rEmpty.matches stAngry "excuse" = false :=
  ⟨rfl, empty_triggers_never_match rEmpty stAngry "excuse" rfl⟩

/-- C8: rule selection returns exactly the rules of the table whose three-part
condition is satisfied — all of them — and as a sublist of the table it keeps
them in table order. -/
theorem matching_rules_sound_complete_ordered (p : CharacterPersona)
    (st : MoodState) (msg : String) :
    (∀ r : MoodBehaviorRule,
      r ∈ p.matching_rules st msg ↔ r ∈ p.mood_behavior_rules ∧ r.matches st msg = true) ∧
    (p.matching_rules st msg).Sublist p.mood_behavior_rules := by
  constructor
  · intro r
    simp [CharacterPersona.matching_rules, List.mem_filter]
  · exact List.filter_sublist p.mood_behavior_rules

/-- C6 counterexample: six successive `update_mood` transitions from a state
with empty history leave six entries in the live `mood_history` field — the
field itself is never truncated, only its serialization is. -/
theorem mood_history_exceeds_cap :
    (bumpMood^[6] stNeutral).mood_history.length = 6 ∧
    5 < (bumpMood^[6] stNeutral).mood_history.length := by
  constructor <;> decide

/-- C6 (amended): the in-memory `mood_history` grows by one entry per
`update_mood` call without any cap; it is the serialized record (`to_dict`)
whose `mood_history` never exceeds 5 entries, and what it keeps is a suffix of
the full history — the oldest entries are the ones discarded. -/
theorem to_dict_history_bounded (s : MoodState) :
    s.to_dict.mood_history.length ≤ 5 ∧
    (∃ k, s.to_dict.mood_history = (s.mood_history.map CharacterMood.value).drop k) ∧
    (s.update_mood .neutral 0.5 "turn" none).mood_history.length =
      s.mood_history.length + 1 := by
  refine ⟨?_, ⟨s.mood_history.length - 5, ?_⟩, ?_⟩
  · simp only [MoodState.to_dict, List.length_map, List.length_drop]
    omega
  · simp [MoodState.to_dict, List.map_drop]
  · simp [MoodState.update_mood]

/-- Round trip of the enum through its value string. -/
lemma charMood_value_roundtrip (m : CharacterMood) : charMoodOfString m.value = some m := by
  cases m <;> rfl

/-- No enum member has the empty string as its value. -/
lemma charMood_value_ne_empty (m : CharacterMood) : m.value ≠ "" := by
  cases m <;> decide

/-- Round trip of a mood list through its value strings. -/
lemma mapM_charMood_value (l : List CharacterMood) :
    charMoodsOfStrings (l.map CharacterMood.value) = some l := by
  induction l with
  | nil => rfl
  | cons a t ih => simp [charMoodsOfStrings, charMood_value_roundtrip, ih]

/-- C7: serializing a `MoodState` whose history is within the 5-entry bound and
deserializing the flat record reproduces the state exactly — every field,
including the nullable previous mood and the history. -/
theorem to_dict_from_dict_roundtrip (s : MoodState) (h : s.mood_history.length ≤ 5) :
    MoodState.from_dict s.to_dict = some s := by
  have hd : s.mood_history.length - 5 = 0 := by omega
  cases hp : s.previous_mood with
  | none =>
    simp [MoodState.from_dict, MoodState.to_dict, hd, charMood_value_roundtrip,
      mapM_charMood_value, hp]
    rw [← hp]
  | some m =>
    simp [MoodState.from_dict, MoodState.to_dict, hd, charMood_value_roundtrip,
      mapM_charMood_value, hp, charMood_value_ne_empty m]
    rw [← hp]

/-- A fully populated state with a two-entry history. -/
def stFull : MoodState :=
  { current_mood := .angry
    intensity := 0.9
    reason := "excuses again"
    trigger_keywords := ["excuse"]
    previous_mood := some .frustrated
    mood_history := [.neutral, .frustrated] }

/-- C7 witness: the round trip reproduces the concrete state `stFull`. -/
theorem to_dict_from_dict_roundtrip_witness :
    stFull.mood_history.length ≤ 5 ∧ MoodState.from_dict stFull.to_dict = some stFull :=
  ⟨by decide, to_dict_from_dict_roundtrip stFull (by decide)⟩

/-- C9: when every history entry is a user or assistant line, the filtered view
is exactly the entry-wise attribution rewrite, in the same order: user lines
unchanged, the target character's lines prefixed `"You said: "`, other
characters' lines prefixed with their name and `" said: "`. -/
theorem history_filter_attributes (history : List ChatMsg) (name : String)
    (h : ∀ m ∈ history, m.role = "user" ∨ m.role = "assistant") :
    get_character_relevant_history history name = history.map (attributedView name) := by
  induction history with
  | nil => rfl
  | cons a t ih =>
    have ha := h a (List.mem_cons_self a t)
    have ht : ∀ m ∈ t, m.role = "user" ∨ m.role = "assistant" :=
      fun m hm => h m (List.mem_cons_of_mem a hm)
    rcases ha with hu | has
    · simp [get_character_relevant_history, attributedView, hu, ih ht]
    · by_cases hus : a.role = "user"
      · simp [get_character_relevant_history, attributedView, hus, ih ht]
      · by_cases hc : a.character.getD "Unknown" = name
        · simp [get_character_relevant_history, attributedView, hus, has, hc, ih ht]
        · simp [get_character_relevant_history, attributedView, hus, has, hc, ih ht]

/-- A three-entry conversation with one user line and two characters. -/
def histSample : List ChatMsg :=
  [{ role := "user", content := some "hello" },
   { role := "assistant", character := some "Marcus", content := some "get it done" },
   { role := "assistant", character := some "Elena", content := some "be nice" }]

/-- C9 witness: filtering the sample history for Marcus applies the attribution
rewrite entry by entry. -/
theorem history_filter_attributes_witness :
    (∀ m ∈ histSample, m.role = "user" ∨ m.role = "assistant") ∧
    get_character_relevant_history histSample "Marcus" =
      histSample.map (attributedView "Marcus") :=
  ⟨by decide, history_filter_attributes histSample "Marcus" (by decide)⟩

/-- C3: whenever any internal step of mood classification fails — the transport
layer erroring, or any exception raised before the commit — `infer_mood` does
not propagate the error and returns the input `MoodState` unmodified, every
field included. -/
theorem infer_mood_error_keeps_state (st : MoodState) (llm_response : Except PyErr String)
    (h : ∃ e, infer_mood_step st llm_response = .error e) :
    infer_mood st llm_response = st := by
  obtain ⟨e, he⟩ := h
  simp [infer_mood, he]

/-- C3 witness: a transport failure leaves the concrete angry state untouched. -/
theorem infer_mood_error_keeps_state_witness :
    (∃ e, infer_mood_step stAngry (.error .transportError) = .error e) ∧
    infer_mood stAngry (.error .transportError) = stAngry :=
  ⟨⟨.transportError, rfl⟩,
   infer_mood_error_keeps_state stAngry (.error .transportError) ⟨.transportError, rfl⟩⟩

/-- C5: when the prior mood is in the negative set, the newly classified mood is
in the positive set and the raw intensity exceeds 0.7, consistency validation
keeps the new mood but caps the intensity at 0.6 — in particular the result is
at most 0.6. -/
theorem validate_consistency_caps_reversal (st : MoodState) (d : PyDict)
    (m : String) (q : ℚ)
    (hneg : st.current_mood.value ∈ negative_moods)
    (hm : d.mood = some (.str m))
    (hpos : m ∈ positive_moods)
    (hq : d.intensity = some (.num q))
    (hhigh : 0.7 < q) :
    ∃ d', validate_consistency st d = .ok d' ∧
      d'.mood = some (.str m) ∧
      d'.intensity = some (.num (min q 0.6)) ∧
      min q 0.6 ≤ 0.6 := by
  refine ⟨{ mood := some (.str m)
            intensity := some (.num (min q 0.6))
            reason := some (d.reason.getD (.str "Inferred from conversation"))
            trigger_keywords := some (d.trigger_keywords.getD (.arr [])) },
          ?_, rfl, rfl, min_le_right q 0.6⟩
  simp [validate_consistency, pyGtNum, hneg, hm, hpos, hq, hhigh]
  rfl

/-- The raw classification record of the C5 scenario: `pleased` at 0.9. -/
def dReversal : PyDict :=
  { mood := some (.str "pleased")
    intensity := some (.num 0.9)
    reason := some (.str "sudden praise")
    trigger_keywords := some (.arr []) }

/-- C5 witness: from prior mood `angry` (0.9), a raw `pleased` at 0.9 is kept as
`pleased` but capped to intensity 0.6. -/
theorem validate_consistency_caps_reversal_witness :
    (stAngry.current_mood.value ∈ negative_moods ∧ "pleased" ∈ positive_moods ∧
      (0.7 : ℚ) < 0.9) ∧
    ∃ d', validate_consistency stAngry dReversal = .ok d' ∧
      d'.mood = some (.str "pleased") ∧
      d'.intensity = some (.num (min 0.9 0.6)) ∧
      min (0.9 : ℚ) 0.6 ≤ 0.6 :=
  ⟨⟨by decide, by decide, by norm_num⟩,
   validate_consistency_caps_reversal stAngry dReversal "pleased" 0.9
     (by decide) rfl (by decide) rfl (by norm_num)⟩

/-- C1 (the defect): on the response text `"intensity: ."` — no brace-matched
JSON, no flat JSON, not JSON as a whole — the field-scraping fallback matches
the intensity token `"."` and the unguarded `float(".")` raises `ValueError`
out of `_parse_mood_response`; the parser does not always return a record. -/
theorem parse_mood_response_raises_on_dot :
    parse_mood_response "intensity: ." = .error .valueError := by
  rfl

/-- C2 (the defect): committing the turn whose raw LLM text is
`"mood: neutral, intensity: 5"` stores intensity 5 in the `MoodState`: the
field-scraping fallback skips the `[0, 1]` clamp every other path applies, and
neither consistency validation nor `update_mood` restores the invariant. -/
theorem infer_mood_commits_out_of_range_intensity :
    (infer_mood stNeutral (.ok "mood: neutral, intensity: 5")).intensity = 5 ∧
    1 < (infer_mood stNeutral (.ok "mood: neutral, intensity: 5")).intensity := by
  constructor
  · decide
  · decide

end FlirBot
